import Mathlib

/-!
Verification of the weather dashboard (src/main.py).

The program has two components: a config loader (`load_api_key`) and a
fetch/reshape function (`load_weather_data`) that issues two HTTP GET
requests (a 2-day window and a 10-day window) and reshapes the JSON bodies
into a current-conditions record, an hourly forecast list and a daily
forecast list.

Embedding choices:
* JSON values are an inductive `Json`; JSON numbers are modelled as `Int`
  (the claims compare field values verbatim and never depend on float
  formatting or float arithmetic).
* Python dictionary/array indexing raises on a missing key, a wrong type or
  an out-of-range index; this is modelled with `Except String`.
* Python f-string interpolation never raises; it is modelled by the total
  `Json.pyStr`.  The textual form of container values is abbreviated: no
  claim ever stringifies a list or a dict, only strings.
* The network is a function from the `days` query parameter to the outcome
  of issuing the request and parsing its body (`requests.get` + `.json()`);
  a network failure, a non-JSON body or any transport problem is the
  `.error` case.  The city and key only vary the URL, never the reshaping,
  so they are not modelled.
* `load_weather_data` additionally returns the list of `days` parameters of
  the requests actually issued, in order, so that "the second request is
  never issued" is a statement about the function's value.
-/

namespace WeatherApp

inductive Json where
  | null : Json
  | bool (b : Bool) : Json
  | num (n : Int) : Json
  | str (s : String) : Json
  | arr (elems : List Json) : Json
  | obj (fields : List (String × Json)) : Json

/-- Python `d[k]` on a dict: the value when the key is present, otherwise a
KeyError; on a non-dict a TypeError. -/
def Json.get : Json → String → Except String Json
  | .obj fields, k =>
      match fields.lookup k with
      | some v => .ok v
      | none => .error ("KeyError: " ++ k)
  | _, k => .error ("TypeError: value is not a dict, key " ++ k)

/-- Python `a[i]` on a list with a nonnegative index. -/
def Json.index : Json → Nat → Except String Json
  | .arr elems, i =>
      match elems.get? i with
      | some v => .ok v
      | none => .error "IndexError: list index out of range"
  | _, _ => .error "TypeError: value is not a list"

/-- Python iteration `for x in v`: succeeds on a list, raises otherwise.
(Python would also iterate dict keys or string characters; the payloads the
program consumes carry JSON arrays at every iterated position, and the
failure claims only need that a non-array fails.) -/
def Json.asArr : Json → Except String (List Json)
  | .arr elems => .ok elems
  | _ => .error "TypeError: value is not iterable"

/-- Python `str(v)` as used by f-string interpolation: total.  Containers
are abbreviated; no claim stringifies a container. -/
def Json.pyStr : Json → String
  | .null => "None"
  | .bool true => "True"
  | .bool false => "False"
  | .num n => toString n
  | .str s => s
  | .arr _ => "<list>"
  | .obj _ => "<dict>"

/-- Python arithmetic coercion of a value to an integer (`100 - v`): works
on numbers and booleans, raises a TypeError otherwise. -/
def Json.asInt : Json → Except String Int
  | .num n => .ok n
  | .bool true => .ok 1
  | .bool false => .ok 0
  | _ => .error "TypeError: unsupported operand type"

/-- The icon URL construction used at src/main.py lines 38, 51 and 66:
the f-string prepends the fixed scheme prefix. -/
def iconUrl (path : String) : String := "http:" ++ path

/-- Left-to-right effectful map over a list, first error wins: the
evaluation order of a Python list comprehension. -/
def mapExcept {α β : Type} (f : α → Except String β) : List α → Except String (List β)
  | [] => .ok []
  | x :: xs => do
      let y ← f x
      let ys ← mapExcept f xs
      pure (y :: ys)

/-- The `current_data` record built at src/main.py lines 32-41. -/
structure CurrentData where
  temperature : Json
  feels_like : Json
  humidity : Json
  condition : Json
  wind_speed : Json
  icon : String
  sunrise : Json
  sunset : Json

/-- One row of the 48-hour forecast table, src/main.py lines 44-51. -/
structure HourEntry where
  time : Json
  temperature : Json
  feels_like : Json
  humidity : Json
  condition : Json
  wind_speed : Json
  icon : String

/-- One row of the 10-day forecast table, src/main.py lines 59-67. -/
structure DayEntry where
  date : Json
  avg_temperature : Json
  condition : Json
  wind_speed : Json
  sunrise : Json
  sunset : Json
  icon : String

/-- Building `current_data` (src/main.py lines 32-41).  Field values are
evaluated in the order the dict literal lists them, so the first forecast
day is only indexed after the whole "current" object has been read. -/
def extractCurrent (data : Json) : Except String CurrentData := do
  let cur ← data.get "current"
  let temperature ← cur.get "temp_c"
  let feels_like ← cur.get "feelslike_c"
  let humidity ← cur.get "humidity"
  let condObj ← cur.get "condition"
  let condition ← condObj.get "text"
  let wind_speed ← cur.get "wind_kph"
  let condObj2 ← cur.get "condition"
  let iconJ ← condObj2.get "icon"
  let forecast ← data.get "forecast"
  let fd ← forecast.get "forecastday"
  let day0 ← fd.index 0
  let astro ← day0.get "astro"
  let sunrise ← astro.get "sunrise"
  let sunset ← astro.get "sunset"
  pure { temperature := temperature, feels_like := feels_like, humidity := humidity,
         condition := condition, wind_speed := wind_speed,
         icon := iconUrl iconJ.pyStr, sunrise := sunrise, sunset := sunset }

/-- One entry of the hourly comprehension (src/main.py lines 44-51). -/
def extractHour (hour : Json) : Except String HourEntry := do
  let time ← hour.get "time"
  let temperature ← hour.get "temp_c"
  let feels_like ← hour.get "feelslike_c"
  let humidity ← hour.get "humidity"
  let condObj ← hour.get "condition"
  let condition ← condObj.get "text"
  let wind_speed ← hour.get "wind_kph"
  let condObj2 ← hour.get "condition"
  let iconJ ← condObj2.get "icon"
  pure { time := time, temperature := temperature, feels_like := feels_like,
         humidity := humidity, condition := condition, wind_speed := wind_speed,
         icon := iconUrl iconJ.pyStr }

/-- The hourly table `forecast_48hr` (src/main.py lines 44-52): flatten the
hours of every forecast day of the 2-day payload, days outermost. -/
def extractHours (data : Json) : Except String (List HourEntry) := do
  let forecast ← data.get "forecast"
  let fd ← forecast.get "forecastday"
  let days ← fd.asArr
  let perDay ← mapExcept (fun day => do
      let hoursJ ← day.get "hour"
      let hours ← hoursJ.asArr
      mapExcept extractHour hours) days
  pure perDay.flatten

/-- One entry of the daily comprehension (src/main.py lines 59-67). -/
def extractDay (day : Json) : Except String DayEntry := do
  let date ← day.get "date"
  let dayObj ← day.get "day"
  let avg_temperature ← dayObj.get "avgtemp_c"
  let condObj ← dayObj.get "condition"
  let condition ← condObj.get "text"
  let wind_speed ← dayObj.get "maxwind_kph"
  let astro ← day.get "astro"
  let sunrise ← astro.get "sunrise"
  let sunset ← astro.get "sunset"
  let iconJ ← condObj.get "icon"
  pure { date := date, avg_temperature := avg_temperature, condition := condition,
         wind_speed := wind_speed, sunrise := sunrise, sunset := sunset,
         icon := iconUrl iconJ.pyStr }

/-- The daily table `forecast_10day` (src/main.py lines 59-67), one row per
element of the 10-day payload's "forecastday" array, in order. -/
def extractDaily (data : Json) : Except String (List DayEntry) := do
  let forecast ← data.get "forecast"
  let fd ← forecast.get "forecastday"
  let days ← fd.asArr
  mapExcept extractDay days

/-- `load_weather_data` (src/main.py lines 21-73).  `net d` is the outcome
of issuing the GET request with `days=d` and parsing its body.  The second
component of the result is the ordered list of `days` parameters of the
requests actually issued.  The whole body sits in one try/except: on any
failure the function returns `(None, empty, empty)`. -/
def load_weather_data (net : Nat → Except String Json) :
    (Option CurrentData × List HourEntry × List DayEntry) × List Nat :=
  match net 2 with
  | .error _ => ((none, [], []), [2])
  | .ok data48 =>
    match extractCurrent data48 with
    | .error _ => ((none, [], []), [2])
    | .ok current =>
      match extractHours data48 with
      | .error _ => ((none, [], []), [2])
      | .ok hours =>
        match net 10 with
        | .error _ => ((none, [], []), [2, 10])
        | .ok data10 =>
          match extractDaily data10 with
          | .error _ => ((none, [], []), [2, 10])
          | .ok daily => ((some current, hours, daily), [2, 10])

/-- Outcome of `load_api_key` (src/main.py lines 9-19): `configMissing`
models the caught FileNotFoundError (error message shown, `None` returned);
`raised` models any other exception, which the function does not catch;
`key` is the successfully extracted value of the "api_key" field. -/
inductive KeyLoadResult where
  | configMissing : KeyLoadResult
  | raised (msg : String) : KeyLoadResult
  | key (k : Json) : KeyLoadResult

/-- `load_api_key` (src/main.py lines 9-19).  The file system is modelled
as `none` when config.json is absent, `some (.error e)` when it exists but
`json.load` fails on its contents, and `some (.ok j)` when it parses to
`j`.  Only the absent-file case is caught. -/
def load_api_key (configFile : Option (Except String Json)) : KeyLoadResult :=
  match configFile with
  | none => .configMissing
  | some (.error e) => .raised e
  | some (.ok config) =>
    match config.get "api_key" with
    | .error e => .raised e
    | .ok k => .key k

/-- Python truthiness of the loaded api_key value, for the
`if not api_key: st.stop()` check at src/main.py lines 79-80. -/
def pyFalsy : Json → Bool
  | .null => true
  | .bool b => !b
  | .num n => n == 0
  | .str s => s == ""
  | .arr elems => elems.isEmpty
  | .obj fields => fields.isEmpty

/-- How an execution of `main` (src/main.py lines 75-154) ends: halted by
`st.stop` before fetching, killed by an uncaught exception, or reaching the
fetch and rendering with its three results. -/
inductive AppOutcome where
  | halted : AppOutcome
  | crashed (msg : String) : AppOutcome
  | ran (current : Option CurrentData) (hourly : List HourEntry)
      (daily : List DayEntry) : AppOutcome

/-- The startup and fetch portion of `main` (src/main.py lines 75-87),
instrumented like `load_weather_data` with the list of issued requests.
When `load_api_key` yields `None` (absent file) or a falsy key, `st.stop`
halts the script before `load_weather_data` is ever called. -/
def main (configFile : Option (Except String Json))
    (net : Nat → Except String Json) : AppOutcome × List Nat :=
  match load_api_key configFile with
  | .configMissing => (.halted, [])
  | .raised e => (.crashed e, [])
  | .key k =>
    if pyFalsy k then (.halted, [])
    else
      match load_weather_data net with
      | ((c, hs, ds), reqs) => (.ran c hs ds, reqs)

/-- The two values handed to the humidity pie chart (src/main.py line 124):
`current_data['humidity']` and `100 - current_data['humidity']`. -/
def humidityPieValues (current : CurrentData) : Except String (List Int) := do
  let h ← current.humidity.asInt
  pure [h, 100 - h]

/-! ### Helper lemmas -/

theorem bind_ok_red {α β : Type} (a : α) (f : α → Except String β) :
    (Except.ok a >>= f) = f a := rfl

theorem pure_red {α : Type} (a : α) : (pure a : Except String α) = Except.ok a := rfl

theorem bind_error_red {α β : Type} (e : String) (f : α → Except String β) :
    ((Except.error e : Except String α) >>= f) = Except.error e := rfl

theorem asArr_arr (xs : List Json) : (Json.arr xs).asArr = Except.ok xs := rfl

/-- `mapExcept` succeeds and returns exactly the pointwise images when every
element maps to an `ok` result. -/
theorem mapExcept_of_forall₂ {α β : Type} (f : α → Except String β) :
    ∀ {xs : List α} {ys : List β},
      List.Forall₂ (fun x y => f x = Except.ok y) xs ys →
      mapExcept f xs = Except.ok ys := by
  intro xs ys h
  induction h with
  | nil => rfl
  | cons hxy _ ih =>
      simp only [mapExcept, hxy, ih, bind_ok_red, pure_red]

/-- Composing two `Forall₂` relations along a shared middle list. -/
theorem forall₂_chain {α β γ : Type} {R : α → β → Prop} {S : β → γ → Prop}
    {T : α → γ → Prop} (h : ∀ a b c, R a b → S b c → T a c) :
    ∀ {xs : List α} {ys : List β} {zs : List γ},
      List.Forall₂ R xs ys → List.Forall₂ S ys zs → List.Forall₂ T xs zs := by
  intro xs ys zs h1
  induction h1 generalizing zs with
  | nil =>
      intro h2
      cases h2
      exact List.Forall₂.nil
  | cons hab _ ih =>
      intro h2
      cases h2 with
      | cons hbc htail => exact List.Forall₂.cons (h _ _ _ hab hbc) (ih htail)

/-- When every element of a list maps to some `ok` value, the whole
`mapExcept` succeeds, with a pointwise-related output list. -/
theorem mapExcept_total {α β : Type} (f : α → Except String β) :
    ∀ (xs : List α), (∀ x ∈ xs, ∃ y, f x = Except.ok y) →
      ∃ ys, List.Forall₂ (fun x y => f x = Except.ok y) xs ys ∧
        mapExcept f xs = Except.ok ys := by
  intro xs
  induction xs with
  | nil => exact fun _ => ⟨[], List.Forall₂.nil, rfl⟩
  | cons x xs ih =>
      intro hall
      obtain ⟨y, hy⟩ := hall x (by simp)
      obtain ⟨ys, hf, hm⟩ := ih (fun z hz => hall z (by simp [hz]))
      exact ⟨y :: ys, List.Forall₂.cons hy hf,
        by simp only [mapExcept, hy, hm, bind_ok_red, pure_red]⟩

/-- Characterisation of `extractCurrent` on a payload whose "current"
object and first forecast day are fully shaped: every field of the result
is the corresponding payload field verbatim, except the icon, which gets
the scheme prefix. -/
theorem extractCurrent_ok (data curObj condObj fobj day0 astro : Json)
    (t fl hum cond ws sr ss : Json) (icon : String)
    (days : List Json)
    (hcur : data.get "current" = Except.ok curObj)
    (ht : curObj.get "temp_c" = Except.ok t)
    (hfl : curObj.get "feelslike_c" = Except.ok fl)
    (hhum : curObj.get "humidity" = Except.ok hum)
    (hco : curObj.get "condition" = Except.ok condObj)
    (htext : condObj.get "text" = Except.ok cond)
    (hw : curObj.get "wind_kph" = Except.ok ws)
    (hic : condObj.get "icon" = Except.ok (Json.str icon))
    (hf : data.get "forecast" = Except.ok fobj)
    (hfd : fobj.get "forecastday" = Except.ok (Json.arr days))
    (h0 : days.get? 0 = some day0)
    (ha : day0.get "astro" = Except.ok astro)
    (hsr : astro.get "sunrise" = Except.ok sr)
    (hss : astro.get "sunset" = Except.ok ss) :
    extractCurrent data = Except.ok
      { temperature := t, feels_like := fl, humidity := hum, condition := cond,
        wind_speed := ws, icon := iconUrl icon, sunrise := sr, sunset := ss } := by
  simp only [extractCurrent, hcur, ht, hfl, hhum, hco, htext, hw, hic, hf, hfd,
    Json.index, h0, ha, hsr, hss, bind_ok_red, pure_red, Json.pyStr]

/-- Characterisation of `extractHours`: the hourly list is the flattening,
days outermost, of the pointwise extraction of each day's "hour" array. -/
theorem extractHours_ok (data fobj : Json) (days : List Json)
    (hourArrays : List (List Json)) (perDay : List (List HourEntry))
    (hf : data.get "forecast" = Except.ok fobj)
    (hfd : fobj.get "forecastday" = Except.ok (Json.arr days))
    (hha : List.Forall₂ (fun dj hs => dj.get "hour" = Except.ok (Json.arr hs))
      days hourArrays)
    (hpd : List.Forall₂ (List.Forall₂ (fun hj e => extractHour hj = Except.ok e))
      hourArrays perDay) :
    extractHours data = Except.ok perDay.flatten := by
  have hchain : List.Forall₂ (fun day es => (do
      let hoursJ ← day.get "hour"
      let hours ← hoursJ.asArr
      mapExcept extractHour hours) = Except.ok es) days perDay :=
    forall₂_chain (fun day hs es h1 h2 => by
      simp only [h1, asArr_arr, bind_ok_red, mapExcept_of_forall₂ extractHour h2])
      hha hpd
  simp only [extractHours, hf, hfd, asArr_arr, bind_ok_red,
    mapExcept_of_forall₂ _ hchain, pure_red]

/-- Characterisation of `extractDaily`: one output row per "forecastday"
element, in payload order. -/
theorem extractDaily_ok (data fobj : Json) (days : List Json)
    (entries : List DayEntry)
    (hf : data.get "forecast" = Except.ok fobj)
    (hfd : fobj.get "forecastday" = Except.ok (Json.arr days))
    (hds : List.Forall₂ (fun dj e => extractDay dj = Except.ok e) days entries) :
    extractDaily data = Except.ok entries := by
  simp only [extractDaily, hf, hfd, asArr_arr, bind_ok_red,
    mapExcept_of_forall₂ extractDay hds]

/-- `load_weather_data` on the all-success path: both requests issued, all
three reshaped results returned. -/
theorem load_weather_data_success (net : Nat → Except String Json)
    (d48 d10 : Json) (c : CurrentData) (hs : List HourEntry) (ds : List DayEntry)
    (h2 : net 2 = Except.ok d48)
    (hc : extractCurrent d48 = Except.ok c)
    (hh : extractHours d48 = Except.ok hs)
    (h10 : net 10 = Except.ok d10)
    (hd : extractDaily d10 = Except.ok ds) :
    load_weather_data net = ((some c, hs, ds), [2, 10]) := by
  simp only [load_weather_data, h2, hc, hh, h10, hd]

/-- `load_weather_data` when the first request itself fails: empty results
and the 10-day request is never issued. -/
theorem load_weather_data_fail_req2 (net : Nat → Except String Json) (e : String)
    (h2 : net 2 = Except.error e) :
    load_weather_data net = ((none, [], []), [2]) := by
  simp only [load_weather_data, h2]

/-- `load_weather_data` when building `current_data` from the first body
fails: empty results and the 10-day request is never issued. -/
theorem load_weather_data_fail_current (net : Nat → Except String Json)
    (d48 : Json) (e : String)
    (h2 : net 2 = Except.ok d48)
    (hc : extractCurrent d48 = Except.error e) :
    load_weather_data net = ((none, [], []), [2]) := by
  simp only [load_weather_data, h2, hc]

/-- `load_weather_data` when the hourly comprehension over the first body
fails: empty results and the 10-day request is never issued. -/
theorem load_weather_data_fail_hours (net : Nat → Except String Json)
    (d48 : Json) (c : CurrentData) (e : String)
    (h2 : net 2 = Except.ok d48)
    (hc : extractCurrent d48 = Except.ok c)
    (hh : extractHours d48 = Except.error e) :
    load_weather_data net = ((none, [], []), [2]) := by
  simp only [load_weather_data, h2, hc, hh]

/-- `load_weather_data` when the second request fails after a fully
successful first request: the already-computed current conditions and
hourly data are discarded. -/
theorem load_weather_data_fail_req10 (net : Nat → Except String Json)
    (d48 : Json) (c : CurrentData) (hs : List HourEntry) (e : String)
    (h2 : net 2 = Except.ok d48)
    (hc : extractCurrent d48 = Except.ok c)
    (hh : extractHours d48 = Except.ok hs)
    (h10 : net 10 = Except.error e) :
    load_weather_data net = ((none, [], []), [2, 10]) := by
  simp only [load_weather_data, h2, hc, hh, h10]

/-- `load_weather_data` when the second body's daily comprehension fails
after a fully successful first request: everything is discarded. -/
theorem load_weather_data_fail_daily (net : Nat → Except String Json)
    (d48 d10 : Json) (c : CurrentData) (hs : List HourEntry) (e : String)
    (h2 : net 2 = Except.ok d48)
    (hc : extractCurrent d48 = Except.ok c)
    (hh : extractHours d48 = Except.ok hs)
    (h10 : net 10 = Except.ok d10)
    (hd : extractDaily d10 = Except.error e) :
    load_weather_data net = ((none, [], []), [2, 10]) := by
  simp only [load_weather_data, h2, hc, hh, h10, hd]

/-! ### Concrete sample payloads, used by the witnesses -/

def sampleCondObj : Json :=
  Json.obj [("text", Json.str "Cloudy"), ("icon", Json.str "//cdn.example/cloud.png")]

def sampleCurrentObj : Json :=
  Json.obj [("temp_c", Json.num 7), ("feelslike_c", Json.num 4),
    ("humidity", Json.num 55), ("condition", sampleCondObj),
    ("wind_kph", Json.num 12)]

def sampleAstro : Json :=
  Json.obj [("sunrise", Json.str "07:00 AM"), ("sunset", Json.str "06:00 PM")]

def sampleHour (t : String) : Json :=
  Json.obj [("time", Json.str t), ("temp_c", Json.num 5),
    ("feelslike_c", Json.num 3), ("humidity", Json.num 80),
    ("condition", Json.obj [("text", Json.str "Sunny"),
      ("icon", Json.str "//cdn.example/day.png")]),
    ("wind_kph", Json.num 10)]

def sampleHourEntry (t : String) : HourEntry :=
  { time := Json.str t, temperature := Json.num 5, feels_like := Json.num 3,
    humidity := Json.num 80, condition := Json.str "Sunny",
    wind_speed := Json.num 10, icon := iconUrl "//cdn.example/day.png" }

def sampleDay48 (hours : List Json) : Json :=
  Json.obj [("date", Json.str "2024-01-01"), ("astro", sampleAstro),
    ("hour", Json.arr hours)]

def samplePayload48 : Json :=
  Json.obj [("current", sampleCurrentObj),
    ("forecast", Json.obj [("forecastday", Json.arr
      [sampleDay48 [sampleHour "h1", sampleHour "h2"],
       sampleDay48 [sampleHour "h3"]])])]

def sampleCurrentData : CurrentData :=
  { temperature := Json.num 7, feels_like := Json.num 4, humidity := Json.num 55,
    condition := Json.str "Cloudy", wind_speed := Json.num 12,
    icon := iconUrl "//cdn.example/cloud.png",
    sunrise := Json.str "07:00 AM", sunset := Json.str "06:00 PM" }

def sampleDay10 (d : String) : Json :=
  Json.obj [("date", Json.str d),
    ("day", Json.obj [("avgtemp_c", Json.num 6),
      ("condition", Json.obj [("text", Json.str "Rain"),
        ("icon", Json.str "//cdn.example/rain.png")]),
      ("maxwind_kph", Json.num 20)]),
    ("astro", sampleAstro)]

def sampleDayEntry (d : String) : DayEntry :=
  { date := Json.str d, avg_temperature := Json.num 6, condition := Json.str "Rain",
    wind_speed := Json.num 20, sunrise := Json.str "07:00 AM",
    sunset := Json.str "06:00 PM", icon := iconUrl "//cdn.example/rain.png" }

def sampleDays10 : List Json :=
  [sampleDay10 "d0", sampleDay10 "d1", sampleDay10 "d2", sampleDay10 "d3",
   sampleDay10 "d4", sampleDay10 "d5", sampleDay10 "d6", sampleDay10 "d7",
   sampleDay10 "d8", sampleDay10 "d9"]

def sampleDailyEntries : List DayEntry :=
  [sampleDayEntry "d0", sampleDayEntry "d1", sampleDayEntry "d2",
   sampleDayEntry "d3", sampleDayEntry "d4", sampleDayEntry "d5",
   sampleDayEntry "d6", sampleDayEntry "d7", sampleDayEntry "d8",
   sampleDayEntry "d9"]

def samplePayload10 : Json :=
  Json.obj [("current", sampleCurrentObj),
    ("forecast", Json.obj [("forecastday", Json.arr sampleDays10)])]

/-- A network where both requests succeed with well-shaped bodies. -/
def sampleNet : Nat → Except String Json :=
  fun d => if d = 2 then Except.ok samplePayload48 else Except.ok samplePayload10

/-- A network where every request fails. -/
def netFail2 : Nat → Except String Json :=
  fun _ => Except.error "connection refused"

/-- A network where the 2-day request succeeds and the 10-day one fails. -/
def netFail10 : Nat → Except String Json :=
  fun d => if d = 2 then Except.ok samplePayload48
           else Except.error "connection refused"

/-- A 2-day body with a well-formed "current" object but an empty
"forecastday" array. -/
def emptyDaysPayload48 : Json :=
  Json.obj [("current", sampleCurrentObj),
    ("forecast", Json.obj [("forecastday", Json.arr [])])]

/-- A network returning the empty-forecastday 2-day body. -/
def netEmptyDays : Nat → Except String Json :=
  fun d => if d = 2 then Except.ok emptyDaysPayload48 else Except.ok samplePayload10

/-- Lists that are pointwise of equal length have equal length images. -/
theorem map_length_of_forall₂ {α β : Type} :
    ∀ {xs : List (List α)} {ys : List (List β)},
      List.Forall₂ (fun x y => x.length = y.length) xs ys →
      xs.map List.length = ys.map List.length := by
  intro xs ys h
  induction h with
  | nil => rfl
  | cons hxy _ ih => simp [List.map_cons, hxy, ih]

/-! ### Claims -/

/-- C1: on a two-request invocation where both bodies are well shaped, the
current-conditions record carries the payload's temperature, feels-like,
humidity, condition text, wind speed, sunrise and sunset verbatim (the icon
alone is prefixed), and the hourly list's length is the sum of the lengths
of the "hour" arrays across the 2-day payload's forecast days. -/
theorem c1_verbatim_fields_and_hourly_length
    (net : Nat → Except String Json)
    (d48 curObj condObj fobj day0 astro d10 : Json)
    (t fl hum cond ws sr ss : Json) (icon : String)
    (days : List Json) (hourArrays : List (List Json))
    (perDay : List (List HourEntry)) (ds : List DayEntry)
    (h2 : net 2 = Except.ok d48)
    (hcur : d48.get "current" = Except.ok curObj)
    (ht : curObj.get "temp_c" = Except.ok t)
    (hfl : curObj.get "feelslike_c" = Except.ok fl)
    (hhum : curObj.get "humidity" = Except.ok hum)
    (hco : curObj.get "condition" = Except.ok condObj)
    (htext : condObj.get "text" = Except.ok cond)
    (hwind : curObj.get "wind_kph" = Except.ok ws)
    (hic : condObj.get "icon" = Except.ok (Json.str icon))
    (hf : d48.get "forecast" = Except.ok fobj)
    (hfd : fobj.get "forecastday" = Except.ok (Json.arr days))
    (h0 : days.get? 0 = some day0)
    (ha : day0.get "astro" = Except.ok astro)
    (hsr : astro.get "sunrise" = Except.ok sr)
    (hss : astro.get "sunset" = Except.ok ss)
    (hha : List.Forall₂ (fun dj hs => dj.get "hour" = Except.ok (Json.arr hs))
      days hourArrays)
    (hpd : List.Forall₂ (List.Forall₂ (fun hj e => extractHour hj = Except.ok e))
      hourArrays perDay)
    (h10 : net 10 = Except.ok d10)
    (hdaily : extractDaily d10 = Except.ok ds) :
    (load_weather_data net).1 =
      (some { temperature := t, feels_like := fl, humidity := hum,
              condition := cond, wind_speed := ws, icon := iconUrl icon,
              sunrise := sr, sunset := ss },
       perDay.flatten, ds) ∧
    perDay.flatten.length = (hourArrays.map List.length).sum := by
  have hc := extractCurrent_ok d48 curObj condObj fobj day0 astro t fl hum cond
    ws sr ss icon days hcur ht hfl hhum hco htext hwind hic hf hfd h0 ha hsr hss
  have hh := extractHours_ok d48 fobj days hourArrays perDay hf hfd hha hpd
  have hsucc := load_weather_data_success net d48 d10 _ _ ds h2 hc hh h10 hdaily
  refine ⟨by rw [hsucc], ?_⟩
  rw [List.length_flatten]
  rw [map_length_of_forall₂ (hpd.imp fun a b hab => hab.length_eq)]

/-- Witness for C1 at the sample network: 2 forecast days carrying 2 and 1
hours, so the hourly list has 3 entries. -/
theorem c1_witness :
    (load_weather_data sampleNet).1 =
      (some { temperature := Json.num 7, feels_like := Json.num 4,
              humidity := Json.num 55, condition := Json.str "Cloudy",
              wind_speed := Json.num 12, icon := iconUrl "//cdn.example/cloud.png",
              sunrise := Json.str "07:00 AM", sunset := Json.str "06:00 PM" },
       ([[sampleHourEntry "h1", sampleHourEntry "h2"],
         [sampleHourEntry "h3"]] : List (List HourEntry)).flatten,
       sampleDailyEntries) ∧
    ([[sampleHourEntry "h1", sampleHourEntry "h2"],
      [sampleHourEntry "h3"]] : List (List HourEntry)).flatten.length =
      ([[sampleHour "h1", sampleHour "h2"],
        [sampleHour "h3"]].map List.length).sum :=
  c1_verbatim_fields_and_hourly_length sampleNet samplePayload48 sampleCurrentObj
    sampleCondObj _ _ _ _ _ _ _ _ _ _ _ "//cdn.example/cloud.png"
    [sampleDay48 [sampleHour "h1", sampleHour "h2"], sampleDay48 [sampleHour "h3"]]
    [[sampleHour "h1", sampleHour "h2"], [sampleHour "h3"]]
    [[sampleHourEntry "h1", sampleHourEntry "h2"], [sampleHourEntry "h3"]]
    sampleDailyEntries
    rfl rfl rfl rfl rfl rfl rfl rfl rfl rfl rfl rfl rfl rfl rfl
    (List.Forall₂.cons rfl (List.Forall₂.cons rfl List.Forall₂.nil))
    (List.Forall₂.cons
      (List.Forall₂.cons rfl (List.Forall₂.cons rfl List.Forall₂.nil))
      (List.Forall₂.cons (List.Forall₂.cons rfl List.Forall₂.nil)
        List.Forall₂.nil))
    rfl rfl

/-- C6: on a 10-day body whose "forecastday" array has exactly 10 shaped
entries (and a fully successful first request), the daily list has exactly
10 entries and the i-th output row is extracted from the i-th input day. -/
theorem c6_daily_ten_entries_in_order
    (net : Nat → Except String Json) (d48 d10 fobj : Json)
    (c : CurrentData) (hs : List HourEntry)
    (days : List Json) (entries : List DayEntry)
    (h2 : net 2 = Except.ok d48)
    (hc : extractCurrent d48 = Except.ok c)
    (hh : extractHours d48 = Except.ok hs)
    (h10 : net 10 = Except.ok d10)
    (hf : d10.get "forecast" = Except.ok fobj)
    (hfd : fobj.get "forecastday" = Except.ok (Json.arr days))
    (hlen : days.length = 10)
    (hds : List.Forall₂ (fun dj e => extractDay dj = Except.ok e) days entries) :
    (load_weather_data net).1.2.2 = entries ∧ entries.length = 10 ∧
    ∀ i, i < 10 → ∃ dj e, days.get? i = some dj ∧ entries.get? i = some e ∧
      extractDay dj = Except.ok e := by
  have hd := extractDaily_ok d10 fobj days entries hf hfd hds
  have hsucc := load_weather_data_success net d48 d10 c hs entries h2 hc hh h10 hd
  have hlen2 : entries.length = 10 := by
    rw [← hds.length_eq]
    exact hlen
  refine ⟨by rw [hsucc], hlen2, ?_⟩
  intro i hi
  have hi1 : i < days.length := by omega
  have hi2 : i < entries.length := by omega
  exact ⟨days.get ⟨i, hi1⟩, entries.get ⟨i, hi2⟩,
    List.get?_eq_get hi1, List.get?_eq_get hi2, hds.get hi1 hi2⟩

/-- Witness for C6 at the sample 10-day payload. -/
theorem c6_witness :
    (load_weather_data sampleNet).1.2.2 = sampleDailyEntries ∧
    sampleDailyEntries.length = 10 ∧
    ∀ i, i < 10 → ∃ dj e, sampleDays10.get? i = some dj ∧
      sampleDailyEntries.get? i = some e ∧ extractDay dj = Except.ok e :=
  c6_daily_ten_entries_in_order sampleNet samplePayload48 samplePayload10 _
    sampleCurrentData
    [sampleHourEntry "h1", sampleHourEntry "h2", sampleHourEntry "h3"]
    sampleDays10 sampleDailyEntries rfl rfl rfl rfl rfl rfl rfl
    (by repeat first
      | exact List.Forall₂.nil
      | refine List.Forall₂.cons rfl ?_)

/-- C7: on a well-shaped 2-day body (and a successful 10-day request), the
hourly list is exactly the flattening of each forecast day's hours —
payload day order outermost, payload hour order within a day, nothing
re-sorted. -/
theorem c7_hourly_is_ordered_flattening
    (net : Nat → Except String Json) (d48 d10 fobj : Json)
    (c : CurrentData) (days : List Json)
    (hourArrays : List (List Json)) (perDay : List (List HourEntry))
    (ds : List DayEntry)
    (h2 : net 2 = Except.ok d48)
    (hc : extractCurrent d48 = Except.ok c)
    (hf : d48.get "forecast" = Except.ok fobj)
    (hfd : fobj.get "forecastday" = Except.ok (Json.arr days))
    (hha : List.Forall₂ (fun dj hs => dj.get "hour" = Except.ok (Json.arr hs))
      days hourArrays)
    (hpd : List.Forall₂ (List.Forall₂ (fun hj e => extractHour hj = Except.ok e))
      hourArrays perDay)
    (h10 : net 10 = Except.ok d10)
    (hdaily : extractDaily d10 = Except.ok ds) :
    extractHours d48 = Except.ok perDay.flatten ∧
    (load_weather_data net).1.2.1 = perDay.flatten := by
  have hh := extractHours_ok d48 fobj days hourArrays perDay hf hfd hha hpd
  have hsucc := load_weather_data_success net d48 d10 c _ ds h2 hc hh h10 hdaily
  exact ⟨hh, by rw [hsucc]⟩

/-- Witness for C7 at the sample network. -/
theorem c7_witness :
    extractHours samplePayload48 =
      Except.ok ([[sampleHourEntry "h1", sampleHourEntry "h2"],
        [sampleHourEntry "h3"]] : List (List HourEntry)).flatten ∧
    (load_weather_data sampleNet).1.2.1 =
      ([[sampleHourEntry "h1", sampleHourEntry "h2"],
        [sampleHourEntry "h3"]] : List (List HourEntry)).flatten :=
  c7_hourly_is_ordered_flattening sampleNet samplePayload48 samplePayload10 _
    sampleCurrentData
    [sampleDay48 [sampleHour "h1", sampleHour "h2"], sampleDay48 [sampleHour "h3"]]
    [[sampleHour "h1", sampleHour "h2"], [sampleHour "h3"]]
    [[sampleHourEntry "h1", sampleHourEntry "h2"], [sampleHourEntry "h3"]]
    sampleDailyEntries rfl rfl rfl rfl
    (List.Forall₂.cons rfl (List.Forall₂.cons rfl List.Forall₂.nil))
    (List.Forall₂.cons
      (List.Forall₂.cons rfl (List.Forall₂.cons rfl List.Forall₂.nil))
      (List.Forall₂.cons (List.Forall₂.cons rfl List.Forall₂.nil)
        List.Forall₂.nil))
    rfl rfl

/-- C2: whenever the 2-day request succeeds and both reshapes of its body
succeed, but the 10-day request fails or the daily reshaping of its body
fails, `load_weather_data` returns an absent current-conditions value and
two empty sequences: the already-computed current conditions and hourly
data are discarded (all-or-nothing within one call). -/
theorem c2_second_failure_discards_all (net : Nat → Except String Json)
    (d48 : Json) (c : CurrentData) (hs : List HourEntry)
    (h2 : net 2 = Except.ok d48)
    (hc : extractCurrent d48 = Except.ok c)
    (hh : extractHours d48 = Except.ok hs)
    (hfail : (∃ e, net 10 = Except.error e) ∨
      (∃ d10 e, net 10 = Except.ok d10 ∧ extractDaily d10 = Except.error e)) :
    (load_weather_data net).1 = (none, [], []) := by
  rcases hfail with ⟨e, he⟩ | ⟨d10, e, h10, hd⟩
  · rw [load_weather_data_fail_req10 net d48 c hs e h2 hc hh he]
  · rw [load_weather_data_fail_daily net d48 d10 c hs e h2 hc hh h10 hd]

/-- Witness for C2: a network whose 10-day request is refused after a fully
successful 2-day request. -/
theorem c2_witness : (load_weather_data netFail10).1 = (none, [], []) :=
  c2_second_failure_discards_all netFail10 samplePayload48 sampleCurrentData
    [sampleHourEntry "h1", sampleHourEntry "h2", sampleHourEntry "h3"]
    rfl rfl rfl (Or.inl ⟨"connection refused", rfl⟩)

/-- C3: whenever the 2-day request fails (transport failure or a body that
does not parse), or reshaping its body fails (missing field, wrong type),
`load_weather_data` returns an absent current-conditions value and two
empty sequences, and the 10-day request is never issued. -/
theorem c3_first_failure_skips_second (net : Nat → Except String Json)
    (hfail : (∃ e, net 2 = Except.error e) ∨
      (∃ d48, net 2 = Except.ok d48 ∧
        ((∃ e, extractCurrent d48 = Except.error e) ∨
         (∃ c e, extractCurrent d48 = Except.ok c ∧
           extractHours d48 = Except.error e)))) :
    (load_weather_data net).1 = (none, [], []) ∧
    (load_weather_data net).2 = [2] ∧ 10 ∉ (load_weather_data net).2 := by
  rcases hfail with ⟨e, he⟩ | ⟨d48, h2, ⟨e, hce⟩ | ⟨c, e, hc, hhe⟩⟩
  · rw [load_weather_data_fail_req2 net e he]
    exact ⟨rfl, rfl, by decide⟩
  · rw [load_weather_data_fail_current net d48 e h2 hce]
    exact ⟨rfl, rfl, by decide⟩
  · rw [load_weather_data_fail_hours net d48 c e h2 hc hhe]
    exact ⟨rfl, rfl, by decide⟩

/-- Witness for C3: a network that refuses every request. -/
theorem c3_witness :
    (load_weather_data netFail2).1 = (none, [], []) ∧
    (load_weather_data netFail2).2 = [2] ∧ 10 ∉ (load_weather_data netFail2).2 :=
  c3_first_failure_skips_second netFail2 (Or.inl ⟨"connection refused", rfl⟩)

/-- C4: with the credential file absent, `load_api_key` reports the missing
configuration (models the caught FileNotFoundError and the `None` return),
and `main` halts at `st.stop` with no HTTP request issued — for every
network, `load_weather_data` is never reached. -/
theorem c4_missing_config_halts (net : Nat → Except String Json) :
    load_api_key none = KeyLoadResult.configMissing ∧
    main none net = (AppOutcome.halted, []) :=
  ⟨rfl, rfl⟩

/-- Witness for C4 at a concrete network. -/
theorem c4_witness :
    load_api_key none = KeyLoadResult.configMissing ∧
    main none sampleNet = (AppOutcome.halted, []) :=
  c4_missing_config_halts sampleNet

/-- C5 counterexample: the icon URL construction is not idempotent — on the
documented partial path, applying it twice prepends the scheme twice. -/
theorem c5_counterexample :
    iconUrl (iconUrl "//cdn.example/icon.png") ≠ iconUrl "//cdn.example/icon.png" := by
  decide

/-- C5 (amended): the icon URL construction prepends the fixed scheme
prefix, and on the partial path it yields exactly the documented full URL;
it is, however, not idempotent — a second application changes every
result. -/
theorem c5_prefix_correct_not_idempotent :
    iconUrl "//cdn.example/icon.png" = "http://cdn.example/icon.png" ∧
    ∀ s : String, iconUrl (iconUrl s) ≠ iconUrl s := by
  refine ⟨rfl, fun s h => ?_⟩
  have hl := congrArg String.length h
  have h5 : ("http:" : String).length = 5 := rfl
  simp only [iconUrl, String.length_append, h5] at hl
  omega

/-- C8: the two values handed to the humidity pie chart are the humidity
and its complement to 100, and they sum to exactly 100, for any humidity in
the range 0 to 100. -/
theorem c8_humidity_pie_sums_to_100 (current : CurrentData) (h : Int)
    (hhum : current.humidity = Json.num h) (hlo : 0 ≤ h) (hhi : h ≤ 100) :
    humidityPieValues current = Except.ok [h, 100 - h] ∧
    ([h, 100 - h] : List Int).sum = 100 := by
  constructor
  · simp only [humidityPieValues, hhum, Json.asInt, bind_ok_red, pure_red]
  · simp only [List.sum_cons, List.sum_nil, add_zero]
    omega

/-- Witness for C8 at the sample current-conditions record (humidity 55). -/
theorem c8_witness :
    humidityPieValues sampleCurrentData = Except.ok [55, 100 - 55] ∧
    ([55, 100 - 55] : List Int).sum = 100 :=
  c8_humidity_pie_sums_to_100 sampleCurrentData 55 rfl (by decide) (by decide)

/-- C9: `load_api_key` reports the missing configuration exactly when the
file is absent; a file that is present but unparseable, and a parsed config
without the "api_key" field, both propagate as an uncaught exception, never
as the missing-configuration report or an absent credential. -/
theorem c9_config_missing_iff_absent_file (configFile : Option (Except String Json)) :
    (load_api_key configFile = KeyLoadResult.configMissing ↔ configFile = none) ∧
    (∀ e, configFile = some (Except.error e) →
      load_api_key configFile = KeyLoadResult.raised e) ∧
    (∀ cfg e, configFile = some (Except.ok cfg) →
      cfg.get "api_key" = Except.error e →
      load_api_key configFile = KeyLoadResult.raised e) := by
  refine ⟨⟨?_, ?_⟩, ?_, ?_⟩
  · intro h
    cases configFile with
    | none => rfl
    | some r =>
        cases r with
        | error e => simp [load_api_key] at h
        | ok cfg =>
            cases hg : cfg.get "api_key" with
            | error e => simp [load_api_key, hg] at h
            | ok k => simp [load_api_key, hg] at h
  · intro h
    subst h
    rfl
  · intro e he
    subst he
    rfl
  · intro cfg e hcfg hget
    subst hcfg
    simp [load_api_key, hget]

/-- Witness for C9: the absent file reports the missing configuration, and
a parsed config lacking the "api_key" field raises a KeyError instead. -/
theorem c9_witness :
    load_api_key none = KeyLoadResult.configMissing ∧
    load_api_key (some (Except.ok (Json.obj [("other", Json.num 1)]))) =
      KeyLoadResult.raised "KeyError: api_key" :=
  ⟨(c9_config_missing_iff_absent_file none).1.mpr rfl,
   (c9_config_missing_iff_absent_file _).2.2 _ _ rfl rfl⟩

/-- C10: on a 2-day body whose "current" object is fully shaped but whose
"forecastday" array is empty, building `current_data` fails with the index
error from reading the first forecast day, so `load_weather_data` returns
an absent current-conditions value and two empty sequences, and the 10-day
request is never issued. -/
theorem c10_empty_forecastday_fails (net : Nat → Except String Json)
    (d48 curObj condObj fobj : Json) (t fl hum cond ws iconJ : Json)
    (h2 : net 2 = Except.ok d48)
    (hcur : d48.get "current" = Except.ok curObj)
    (ht : curObj.get "temp_c" = Except.ok t)
    (hfl : curObj.get "feelslike_c" = Except.ok fl)
    (hhum : curObj.get "humidity" = Except.ok hum)
    (hco : curObj.get "condition" = Except.ok condObj)
    (htext : condObj.get "text" = Except.ok cond)
    (hw : curObj.get "wind_kph" = Except.ok ws)
    (hic : condObj.get "icon" = Except.ok iconJ)
    (hf : d48.get "forecast" = Except.ok fobj)
    (hfd : fobj.get "forecastday" = Except.ok (Json.arr [])) :
    extractCurrent d48 = Except.error "IndexError: list index out of range" ∧
    (load_weather_data net).1 = (none, [], []) ∧
    (load_weather_data net).2 = [2] ∧ 10 ∉ (load_weather_data net).2 := by
  have hidx : (Json.arr ([] : List Json)).index 0 =
      Except.error "IndexError: list index out of range" := rfl
  have hce : extractCurrent d48 = Except.error "IndexError: list index out of range" := by
    simp only [extractCurrent, hcur, ht, hfl, hhum, hco, htext, hw, hic, hf, hfd,
      hidx, bind_ok_red, bind_error_red]
  refine ⟨hce, ?_⟩
  rw [load_weather_data_fail_current net d48 _ h2 hce]
  exact ⟨rfl, rfl, by decide⟩

/-- Witness for C10: the concrete empty-forecastday body. -/
theorem c10_witness :
    extractCurrent emptyDaysPayload48 =
      Except.error "IndexError: list index out of range" ∧
    (load_weather_data netEmptyDays).1 = (none, [], []) ∧
    (load_weather_data netEmptyDays).2 = [2] ∧
    10 ∉ (load_weather_data netEmptyDays).2 :=
  c10_empty_forecastday_fails netEmptyDays emptyDaysPayload48 sampleCurrentObj
    sampleCondObj _ _ _ _ _ _ _ rfl rfl rfl rfl rfl rfl rfl rfl rfl rfl rfl

end WeatherApp
